import Mathlib

/-!
Verification development for the nodejs_bootcamp REST backend.

We embed the request-authorization and cache-consistency pipeline of the
repository (src/app/src/routes/userRoutes.ts, src/app/src/middleware/*)
shallowly in Lean: stateful route handlers become pure functions that take
the store and cache states and return the updated states, the HTTP response
and an ordered trace of the I/O effects the handler performed.  External
libraries (bcryptjs, jsonwebtoken, ioredis, express-rate-limit,
class-validator) are modelled by their documented semantics at the calls
the repository makes; the password hash and the JSON serialization are kept
abstract as function parameters since no claim depends on their internals.
-/

namespace Bootcamp

/-- Roles, from src/app/src/entity/User.ts (enum UserRole). -/
inductive UserRole where
  | user
  | admin
deriving DecidableEq, Repr

/-- A persisted user record, from src/app/src/entity/User.ts. -/
structure User where
  id : Nat
  name : String
  email : String
  password : String
  role : UserRole
deriving DecidableEq, Repr

/-- The credential store state: the set of persisted users plus the next
auto-generated primary key (PrimaryGeneratedColumn). -/
structure Store where
  users : List User
  nextId : Nat
deriving DecidableEq, Repr

/-- userRepository.findOne where email = e. -/
def findOneByEmail (s : Store) (e : String) : Option User :=
  s.users.find? (fun u => u.email == e)

/-- The cache (Redis) state: an association list from key to
(serialized value, remaining TTL in seconds). -/
abbrev Cache : Type := List (String × String × Nat)

/-- redis.get k. -/
def cacheGet (c : Cache) (k : String) : Option String :=
  (c.find? (fun e => e.1 == k)).map (fun e => e.2.1)

/-- redis.set k v EX ttl. -/
def cacheSet (c : Cache) (k v : String) (ttl : Nat) : Cache :=
  (k, v, ttl) :: c.filter (fun e => e.1 != k)

/-- redis.del k. -/
def cacheDel (c : Cache) (k : String) : Cache :=
  c.filter (fun e => e.1 != k)

/-- Response bodies the modelled routes produce. -/
inductive Body where
  | msg (m : String)
  | userList (l : List User)
  | validation (m : String) (errors : List (List String))
deriving DecidableEq, Repr

/-- An HTTP response: status code and JSON body. -/
structure Response where
  status : Nat
  body : Body
deriving DecidableEq, Repr

/-- I/O effects a handler performs, in program order. -/
inductive Ev where
  | storeFindOne (email : String)
  | storeFindAll
  | storeSave (u : User)
  | hashPw
  | cacheGetEv (k : String)
  | cacheSetEv (k : String) (v : String) (ttl : Nat)
  | cacheDelEv (k : String)
  | respondEv (r : Response)
deriving DecidableEq, Repr

def Ev.isCacheDel : Ev → Bool
  | .cacheDelEv _ => true
  | _ => false

def Ev.isStoreSave : Ev → Bool
  | .storeSave _ => true
  | _ => false

def Ev.isStoreFindOne : Ev → Bool
  | .storeFindOne _ => true
  | _ => false

def Ev.isStoreFindAll : Ev → Bool
  | .storeFindAll => true
  | _ => false

def Ev.isCacheSet : Ev → Bool
  | .cacheSetEv _ _ _ => true
  | _ => false

def Ev.isRespond : Ev → Bool
  | .respondEv _ => true
  | _ => false

def Ev.isHashPw : Ev → Bool
  | .hashPw => true
  | _ => false

/-- The request body of POST /register after the validation gate accepted
it (RegisterUserDTO): name, email, password are strings, role an optional
UserRole. -/
structure RegisterBody where
  name : String
  email : String
  password : String
  role : Option UserRole
deriving DecidableEq, Repr

/-- Result of running a register request. -/
structure RegisterOut where
  store : Store
  cache : Cache
  resp : Response
  trace : List Ev
deriving DecidableEq, Repr

/-- The POST /register handler from src/app/src/routes/userRoutes.ts.
`hashSalt` is process.env.HASH_SALT; `hashFn pw salt` abstracts
bcrypt.hash(password, parseInt(salt)) — an external library call whose
output no claim inspects.  `role || UserRole.USER` on the validated body
(role is either absent or a UserRole value, both enum strings truthy in JS)
is Option.getD. -/
def registerHandler (hashSalt : Option String) (hashFn : String → String → String)
    (b : RegisterBody) (st : Store) (c : Cache) : RegisterOut :=
  match hashSalt with
  | none =>
    let r : Response := ⟨500, .msg "Some crucial keys haven\x27t been set"⟩
    ⟨st, c, r, [.respondEv r]⟩
  | some salt =>
    match findOneByEmail st b.email with
    | some _ =>
      let r : Response := ⟨400, .msg "This email address have been used"⟩
      ⟨st, c, r, [.storeFindOne b.email, .respondEv r]⟩
    | none =>
      let hashed := hashFn b.password salt
      let newUser : User := ⟨st.nextId, b.name, b.email, hashed, b.role.getD .user⟩
      let st2 : Store := ⟨st.users ++ [newUser], st.nextId + 1⟩
      let c2 := cacheDel c "users"
      let r : Response := ⟨201, .msg "User registered successfully"⟩
      ⟨st2, c2, r,
        [.storeFindOne b.email, .hashPw, .storeSave newUser,
         .cacheDelEv "users", .respondEv r]⟩

/-- Result of running a GET /users request. -/
structure UsersOut where
  cache : Cache
  resp : Response
  trace : List Ev
deriving DecidableEq, Repr

/-- The GET /users handler from src/app/src/routes/userRoutes.ts.
`ser` and `deser` abstract JSON.stringify / JSON.parse on user lists.
The TTL is 60 * 5 seconds (redis.set .. EX 300). -/
def usersHandler (ser : List User → String) (deser : String → List User)
    (st : Store) (c : Cache) : UsersOut :=
  match cacheGet c "users" with
  | some cached =>
    let r : Response := ⟨200, .userList (deser cached)⟩
    ⟨c, r, [.cacheGetEv "users", .respondEv r]⟩
  | none =>
    let users := st.users
    let c2 := cacheSet c "users" (ser users) (60 * 5)
    let r : Response := ⟨200, .userList users⟩
    ⟨c2, r,
      [.cacheGetEv "users", .storeFindAll,
       .cacheSetEv "users" (ser users) (60 * 5), .respondEv r]⟩

/-- The claims of a signed token: jwt.sign({ userId, role }, secret). -/
structure JwtPayload where
  userId : Nat
  role : UserRole
deriving DecidableEq, Repr

/-- A signed token, modelling the jsonwebtoken library symbolically: the
signature is sound (a token verifies against a secret iff it was signed
with that secret) and carries issued-at and expiry times in seconds. -/
structure Jwt where
  payload : JwtPayload
  iat : Nat
  exp : Nat
  secret : String
deriving DecidableEq, Repr

/-- jwt.sign(payload, secret, expiresIn 1h): expiry is issuance + 3600 s. -/
def jwtSign (p : JwtPayload) (secret : String) (now : Nat) : Jwt :=
  ⟨p, now, now + 3600, secret⟩

/-- jwt.verify(token, secret) at time `now`: throws (here: returns an
error) when the signature does not match the secret or when
now ≥ exp (TokenExpiredError); otherwise yields the decoded payload. -/
def jwtVerify (t : Jwt) (secret : String) (now : Nat) : Except String JwtPayload :=
  if t.secret ≠ secret then .error "invalid signature"
  else if t.exp ≤ now then .error "jwt expired"
  else .ok t.payload

/-- One space-separated component of an Authorization header value:
either a well-formed signed token or an arbitrary non-token string. -/
inductive TokenPart where
  | tok (j : Jwt)
  | garbage (s : String)
deriving DecidableEq, Repr

/-- A present, non-empty Authorization header, as the list of its
space-separated components (authHeader split on spaces). -/
structure AuthHeader where
  parts : List TokenPart
deriving DecidableEq, Repr

/-- jwt.verify applied to component 1 of the split header: an absent second
component (undefined) or a malformed string throws, a well-formed token is
checked by `jwtVerify`. -/
def verifyBearer (p : Option TokenPart) (secret : String) (now : Nat) :
    Except String JwtPayload :=
  match p with
  | none => .error "jwt must be provided"
  | some (.garbage _) => .error "jwt malformed"
  | some (.tok j) => jwtVerify j secret now

/-- Outcome of a middleware: either it responds itself (short-circuit) or
it calls next() with the decoded user attached to the request. -/
inductive MWResult where
  | respond (r : Response)
  | next (u : JwtPayload)
deriving DecidableEq, Repr

/-- The checkRole middleware from src/app/src/middleware/roleMiddleware.ts:
missing header → 401; jwt.verify failure (caught) → 401 Invalid token;
decoded role not in `roles` → 403 Access denied; otherwise attach the
decoded user and call next(). -/
def checkRole (roles : List UserRole) (authHeader : Option AuthHeader)
    (secret : String) (now : Nat) : MWResult :=
  match authHeader with
  | none => .respond ⟨401, .msg "Authorization header missing"⟩
  | some h =>
    match verifyBearer h.parts[1]? secret now with
    | .error _ => .respond ⟨401, .msg "Invalid token"⟩
    | .ok decoded =>
      if decoded.role ∈ roles then .next decoded
      else .respond ⟨403, .msg "Access denied"⟩

/-- GET /admin from src/app/src/routes/userRoutes.ts: checkRole([ADMIN])
guarding a handler that responds 200 with a welcome message. -/
def adminRoute (authHeader : Option AuthHeader) (secret : String) (now : Nat) :
    Response :=
  match checkRole [UserRole.admin] authHeader secret now with
  | .respond r => r
  | .next _ => ⟨200, .msg "Welcome to the admin panel!"⟩

/-- Rate limiter configuration from src/middleware/rateLimiter.ts
(src/unnamed/part_006): windowMs = 1 * 60 * 1000. -/
def rlWindowMs : Nat := 1 * 60 * 1000

/-- max = 10 requests per window. -/
def rlMax : Nat := 10

/-- The configured throttle message. -/
def rlMessage : String := "Too many requests from this IP, please try again after 1 minutes."

/-- Per-client rate-limit counter state: hit count in the current fixed
window and the window start time (ms). -/
structure RLState where
  count : Nat
  windowStart : Nat
deriving DecidableEq, Repr

/-- Registering one hit at time `now` (ms): a fresh or expired window
restarts the counter at 1, otherwise the counter increments. This is the
fixed-window counter semantics of express-rate-limit over its store. -/
def rlHit (st : Option RLState) (now : Nat) : RLState :=
  match st with
  | none => ⟨1, now⟩
  | some s =>
    if s.windowStart + rlWindowMs ≤ now then ⟨1, now⟩
    else ⟨s.count + 1, s.windowStart⟩

/-- The standard draft RateLimit-* headers sent with standardHeaders:
limit, remaining and the window reset time. -/
structure RLHeaders where
  limit : Nat
  remaining : Nat
  reset : Nat
deriving DecidableEq, Repr

/-- Outcome of the rate limiter on one request: pass the request through,
or short-circuit with 429, the configured message and the headers. In both
cases the updated counter state is the only state touched. -/
inductive RLResult where
  | allow (st : RLState)
  | throttled (st : RLState) (status : Nat) (message : String) (hdrs : RLHeaders)
deriving DecidableEq, Repr

/-- One request through the rate limiter: count the hit, then admit iff
the count is within max. -/
def rateLimiter (st : Option RLState) (now : Nat) : RLResult :=
  let s := rlHit st now
  if s.count ≤ rlMax then .allow s
  else .throttled s 429 rlMessage ⟨rlMax, rlMax - s.count, s.windowStart + rlWindowMs⟩

/-- The counter state after a rate-limiter outcome (the store keeps the
incremented count whether or not the request was throttled). -/
def RLResult.state : RLResult → RLState
  | .allow s => s
  | .throttled s _ _ _ => s

/-- Run a sequence of requests (by arrival time) through the rate limiter,
threading the counter state. -/
def rlProcess : List Nat → Option RLState → Option RLState
  | [], st => st
  | t :: ts, st => rlProcess ts (some (rateLimiter st t).state)

/-- A JSON value of a request-body field, as far as the declared
constraints inspect it: a string, or some non-string value. -/
inductive JVal where
  | str (s : String)
  | nonStr
deriving DecidableEq, Repr

/-- The raw (pre-validation) payload of a register or login request:
each DTO field either absent (undefined) or a JSON value. -/
structure RawPayload where
  name : Option JVal
  email : Option JVal
  password : Option JVal
  role : Option JVal
deriving DecidableEq, Repr

def JVal.asStr : Option JVal → Option String
  | some (.str s) => some s
  | _ => none

/-- Violations of the IsString decorator on a field. -/
def isStringErrs (field : String) (v : Option JVal) : List String :=
  match JVal.asStr v with
  | some _ => []
  | none => [field ++ " must be a string"]

/-- Violations of the MinLength(n) decorator on a field (fails on absent
and non-string values too, as class-validator does). -/
def minLengthErrs (field : String) (n : Nat) (v : Option JVal) : List String :=
  let m := field ++ " must be longer than or equal to " ++ toString n ++ " characters"
  match JVal.asStr v with
  | some s => if n ≤ s.length then [] else [m]
  | none => [m]

/-- Violations of the IsEmail decorator; the email-format check itself is
the validator of the library, kept abstract as `isEmailFn`. -/
def isEmailErrs (isEmailFn : String → Bool) (field : String) (v : Option JVal) :
    List String :=
  match JVal.asStr v with
  | some s => if isEmailFn s then [] else [field ++ " must be an email"]
  | none => [field ++ " must be an email"]

/-- Violations of the IsEnum(UserRole) decorator: the value must be one of
the enum member values. -/
def isEnumRoleErrs (field : String) (v : JVal) : List String :=
  match v with
  | .str s => if s == "user" || s == "admin" then [] else [field ++ " must be a valid enum value"]
  | .nonStr => [field ++ " must be a valid enum value"]

/-- Constraint violations of the name field of RegisterUserDTO
(IsString, MinLength 2). -/
def nameErrs (p : RawPayload) : List String :=
  isStringErrs "name" p.name ++ minLengthErrs "name" 2 p.name

/-- Constraint violations of the email field of RegisterUserDTO (IsEmail). -/
def emailErrs (isEmailFn : String → Bool) (p : RawPayload) : List String :=
  isEmailErrs isEmailFn "email" p.email

/-- Constraint violations of the password field of RegisterUserDTO
(IsString, MinLength 6). -/
def passwordErrs (p : RawPayload) : List String :=
  isStringErrs "password" p.password ++ minLengthErrs "password" 6 p.password

/-- Constraint violations of the role field of RegisterUserDTO
(IsOptional, IsEnum UserRole): an absent field is skipped. -/
def roleErrs (p : RawPayload) : List String :=
  match p.role with
  | none => []
  | some v => isEnumRoleErrs "role" v

/-- validate(plainToInstance(RegisterUserDTO, body)): one entry of
constraint messages per property that has violations (properties without
violations are omitted), not fail-fast. -/
def validateRegister (isEmailFn : String → Bool) (p : RawPayload) :
    List (List String) :=
  ([nameErrs p, emailErrs isEmailFn p, passwordErrs p, roleErrs p]).filter
    (fun l => !l.isEmpty)

/-- Constraint violations of the password field of LoginUserDTO (IsString). -/
def loginPasswordErrs (p : RawPayload) : List String :=
  isStringErrs "password" p.password

/-- validate(plainToInstance(LoginUserDTO, body)): email IsEmail,
password IsString. -/
def validateLogin (isEmailFn : String → Bool) (p : RawPayload) :
    List (List String) :=
  ([emailErrs isEmailFn p, loginPasswordErrs p]).filter (fun l => !l.isEmpty)

/-- Outcome of the validation middleware: respond 400 or call next(). -/
inductive VMResult where
  | respond400 (message : String) (errors : List (List String))
  | next
deriving DecidableEq, Repr

/-- validationMiddleware (src/middleware/validationMiddleware.ts,
src/unnamed/part_008): if the collected errors are non-empty respond 400
with message Validation failed and the per-field constraint-message lists;
otherwise next(). -/
def validationMiddleware (errs : List (List String)) : VMResult :=
  if errs.length > 0 then .respond400 "Validation failed" errs else .next

/-- A validated route: the handler runs only when the validation
middleware called next(); otherwise the 400 validation response is sent
and the handler events never occur. -/
def runValidated (errs : List (List String)) (handler : Response × List Ev) :
    Response × List Ev :=
  match validationMiddleware errs with
  | .respond400 m es =>
    let r : Response := ⟨400, .validation m es⟩
    (r, [.respondEv r])
  | .next => handler

/-- On the successful register path the handler output is this explicit
record; shared by the register theorems. -/
theorem registerHandler_success_eq (hashFn : String → String → String)
    (b : RegisterBody) (st : Store) (c : Cache) (salt : String)
    (hfree : findOneByEmail st b.email = none) :
    registerHandler (some salt) hashFn b st c =
      ⟨⟨st.users ++ [⟨st.nextId, b.name, b.email, hashFn b.password salt, b.role.getD .user⟩],
        st.nextId + 1⟩,
       cacheDel c "users",
       ⟨201, .msg "User registered successfully"⟩,
       [.storeFindOne b.email, .hashPw,
        .storeSave ⟨st.nextId, b.name, b.email, hashFn b.password salt, b.role.getD .user⟩,
        .cacheDelEv "users",
        .respondEv ⟨201, .msg "User registered successfully"⟩]⟩ := by
  unfold registerHandler
  rw [hfree]

/-- Claim C1: on every successful registration (validation passed,
HASH_SALT set, email free) the handler deletes the cache key users exactly
once, strictly after the store save and strictly before the 201 response. -/
theorem register_cache_invalidation_ordered (hashFn : String → String → String)
    (b : RegisterBody) (st : Store) (c : Cache) (salt : String)
    (hfree : findOneByEmail st b.email = none) :
    (registerHandler (some salt) hashFn b st c).resp.status = 201 ∧
    ((registerHandler (some salt) hashFn b st c).trace.countP Ev.isCacheDel) = 1 ∧
    ∃ i j k : Nat, i < j ∧ j < k ∧
      ((registerHandler (some salt) hashFn b st c).trace.get? i).any Ev.isStoreSave = true ∧
      (registerHandler (some salt) hashFn b st c).trace.get? j =
        some (.cacheDelEv "users") ∧
      ((registerHandler (some salt) hashFn b st c).trace.get? k).any Ev.isRespond = true := by
  rw [registerHandler_success_eq hashFn b st c salt hfree]
  exact ⟨rfl, rfl, 2, 3, 4, by omega, by omega, rfl, rfl, rfl⟩

/-- Witness for C1 at a concrete request against an empty store. -/
theorem register_cache_invalidation_ordered_witness :
    findOneByEmail ⟨[], 1⟩ "a@b.c" = none ∧
    ((registerHandler (some "10") (fun p _ => p) ⟨"Jo", "a@b.c", "secret", none⟩
        ⟨[], 1⟩ []).resp.status = 201 ∧
     ((registerHandler (some "10") (fun p _ => p) ⟨"Jo", "a@b.c", "secret", none⟩
        ⟨[], 1⟩ []).trace.countP Ev.isCacheDel) = 1 ∧
     ∃ i j k : Nat, i < j ∧ j < k ∧
       ((registerHandler (some "10") (fun p _ => p) ⟨"Jo", "a@b.c", "secret", none⟩
          ⟨[], 1⟩ []).trace.get? i).any Ev.isStoreSave = true ∧
       (registerHandler (some "10") (fun p _ => p) ⟨"Jo", "a@b.c", "secret", none⟩
          ⟨[], 1⟩ []).trace.get? j = some (.cacheDelEv "users") ∧
       ((registerHandler (some "10") (fun p _ => p) ⟨"Jo", "a@b.c", "secret", none⟩
          ⟨[], 1⟩ []).trace.get? k).any Ev.isRespond = true) :=
  ⟨rfl, register_cache_invalidation_ordered (fun p _ => p)
    ⟨"Jo", "a@b.c", "secret", none⟩ ⟨[], 1⟩ [] "10" rfl⟩

/-- Claim C2: a register request whose email already exists gets 400 with
the duplicate message, the store is unchanged, nothing is saved and the
users cache key is not deleted. -/
theorem register_duplicate_email_rejected (hashFn : String → String → String)
    (b : RegisterBody) (st : Store) (c : Cache) (salt : String) (u : User)
    (hdup : findOneByEmail st b.email = some u) :
    (registerHandler (some salt) hashFn b st c).resp =
      ⟨400, .msg "This email address have been used"⟩ ∧
    (registerHandler (some salt) hashFn b st c).store = st ∧
    (registerHandler (some salt) hashFn b st c).cache = c ∧
    ((registerHandler (some salt) hashFn b st c).trace.countP Ev.isStoreSave) = 0 ∧
    ((registerHandler (some salt) hashFn b st c).trace.countP Ev.isCacheDel) = 0 := by
  unfold registerHandler
  rw [hdup]
  exact ⟨rfl, rfl, rfl, rfl, rfl⟩

/-- Witness for C2: registering the same email twice. -/
theorem register_duplicate_email_rejected_witness :
    findOneByEmail ⟨[⟨1, "Jo", "a@b.c", "h", .user⟩], 2⟩ "a@b.c" =
      some ⟨1, "Jo", "a@b.c", "h", .user⟩ ∧
    ((registerHandler (some "10") (fun p _ => p) ⟨"Jo", "a@b.c", "secret", none⟩
        ⟨[⟨1, "Jo", "a@b.c", "h", .user⟩], 2⟩ []).resp =
      ⟨400, .msg "This email address have been used"⟩ ∧
     (registerHandler (some "10") (fun p _ => p) ⟨"Jo", "a@b.c", "secret", none⟩
        ⟨[⟨1, "Jo", "a@b.c", "h", .user⟩], 2⟩ []).store =
      ⟨[⟨1, "Jo", "a@b.c", "h", .user⟩], 2⟩ ∧
     (registerHandler (some "10") (fun p _ => p) ⟨"Jo", "a@b.c", "secret", none⟩
        ⟨[⟨1, "Jo", "a@b.c", "h", .user⟩], 2⟩ []).cache = [] ∧
     ((registerHandler (some "10") (fun p _ => p) ⟨"Jo", "a@b.c", "secret", none⟩
        ⟨[⟨1, "Jo", "a@b.c", "h", .user⟩], 2⟩ []).trace.countP Ev.isStoreSave) = 0 ∧
     ((registerHandler (some "10") (fun p _ => p) ⟨"Jo", "a@b.c", "secret", none⟩
        ⟨[⟨1, "Jo", "a@b.c", "h", .user⟩], 2⟩ []).trace.countP Ev.isCacheDel) = 0) :=
  ⟨by decide, register_duplicate_email_rejected (fun p _ => p)
    ⟨"Jo", "a@b.c", "secret", none⟩ ⟨[⟨1, "Jo", "a@b.c", "h", .user⟩], 2⟩ [] "10"
    ⟨1, "Jo", "a@b.c", "h", .user⟩ (by decide)⟩

/-- Claim C6: on a successful registration the role of the stored record is the
role supplied in the body when present — including admin, the handler
taking no authentication input — and defaults to user exactly when the
role field is absent. -/
theorem register_role_taken_from_body (hashFn : String → String → String)
    (b : RegisterBody) (st : Store) (c : Cache) (salt : String)
    (hfree : findOneByEmail st b.email = none) :
    ∃ u : User,
      (registerHandler (some salt) hashFn b st c).store.users = st.users ++ [u] ∧
      u.role = b.role.getD .user ∧
      (∀ r, b.role = some r → u.role = r) ∧
      (b.role = none → u.role = .user) := by
  rw [registerHandler_success_eq hashFn b st c salt hfree]
  refine ⟨_, rfl, rfl, ?_, ?_⟩
  · intro r hr
    simp [hr]
  · intro hr
    simp [hr]

/-- Witness for C6: an unauthenticated registration asking for role admin
is stored with role admin. -/
theorem register_role_taken_from_body_witness :
    findOneByEmail ⟨[], 1⟩ "a@b.c" = none ∧
    ∃ u : User,
      (registerHandler (some "10") (fun p _ => p)
        ⟨"Jo", "a@b.c", "secret", some .admin⟩ ⟨[], 1⟩ []).store.users = [] ++ [u] ∧
      u.role = (some UserRole.admin).getD .user ∧
      (∀ r, some UserRole.admin = some r → u.role = r) ∧
      (some UserRole.admin = none → u.role = .user) :=
  ⟨rfl, register_role_taken_from_body (fun p _ => p)
    ⟨"Jo", "a@b.c", "secret", some .admin⟩ ⟨[], 1⟩ [] "10" rfl⟩

/-- Claim C8: with HASH_SALT unset the register handler responds 500 with
the configuration message and performs no store lookup, no hash, no save
and no cache deletion: store and cache are untouched. -/
theorem register_missing_salt_fails_fast (hashFn : String → String → String)
    (b : RegisterBody) (st : Store) (c : Cache) :
    registerHandler none hashFn b st c =
      ⟨st, c, ⟨500, .msg "Some crucial keys haven\x27t been set"⟩,
       [.respondEv ⟨500, .msg "Some crucial keys haven\x27t been set"⟩]⟩ ∧
    ((registerHandler none hashFn b st c).trace.countP Ev.isStoreFindOne) = 0 ∧
    ((registerHandler none hashFn b st c).trace.countP Ev.isHashPw) = 0 ∧
    ((registerHandler none hashFn b st c).trace.countP Ev.isStoreSave) = 0 ∧
    ((registerHandler none hashFn b st c).trace.countP Ev.isCacheDel) = 0 :=
  ⟨rfl, rfl, rfl, rfl, rfl⟩

/-- Claim C3: GET /users is a read-through cache. On a hit it returns the
deserialized cached value, reads nothing from the store, writes nothing to
the cache and leaves the cache unchanged; on a miss it reads the full user
set from the store, caches its serialization under users with a 300-second
(5-minute) TTL and returns that user set. -/
theorem users_read_through_cache (ser : List User → String)
    (deser : String → List User) (st : Store) (c : Cache) :
    (∀ v, cacheGet c "users" = some v →
      usersHandler ser deser st c =
        ⟨c, ⟨200, .userList (deser v)⟩,
         [.cacheGetEv "users", .respondEv ⟨200, .userList (deser v)⟩]⟩ ∧
      ((usersHandler ser deser st c).trace.countP Ev.isStoreFindAll) = 0 ∧
      ((usersHandler ser deser st c).trace.countP Ev.isCacheSet) = 0) ∧
    (cacheGet c "users" = none →
      (usersHandler ser deser st c).resp = ⟨200, .userList st.users⟩ ∧
      (usersHandler ser deser st c).cache =
        cacheSet c "users" (ser st.users) (60 * 5) ∧
      Ev.storeFindAll ∈ (usersHandler ser deser st c).trace ∧
      Ev.cacheSetEv "users" (ser st.users) (60 * 5) ∈
        (usersHandler ser deser st c).trace) := by
  constructor
  · intro v hv
    unfold usersHandler
    rw [hv]
    exact ⟨rfl, rfl, rfl⟩
  · intro hv
    unfold usersHandler
    rw [hv]
    refine ⟨rfl, rfl, ?_, ?_⟩
    · simp
    · simp

/-- Witness for C3: a hit on a warm cache and a miss on an empty cache. -/
theorem users_read_through_cache_witness :
    (cacheGet [("users", "x", 300)] "users" = some "x" ∧
     usersHandler (fun _ => "s") (fun _ => []) ⟨[], 1⟩ [("users", "x", 300)] =
       ⟨[("users", "x", 300)], ⟨200, .userList []⟩,
        [.cacheGetEv "users", .respondEv ⟨200, .userList []⟩]⟩) ∧
    (cacheGet [] "users" = none ∧
     (usersHandler (fun _ => "s") (fun _ => []) ⟨[], 1⟩ []).resp =
       ⟨200, .userList []⟩ ∧
     (usersHandler (fun _ => "s") (fun _ => []) ⟨[], 1⟩ []).cache =
       cacheSet [] "users" ((fun (_ : List User) => "s") []) (60 * 5)) :=
  ⟨⟨rfl, ((users_read_through_cache (fun _ => "s") (fun _ => []) ⟨[], 1⟩
      [("users", "x", 300)]).1 "x" rfl).1⟩,
   rfl,
   ((users_read_through_cache (fun _ => "s") (fun _ => []) ⟨[], 1⟩ []).2 rfl).1,
   ((users_read_through_cache (fun _ => "s") (fun _ => []) ⟨[], 1⟩ []).2 rfl).2.1⟩

/-- Does a verification result admit the request (the ok branch)? -/
def verifyAdmits : Except String JwtPayload → Bool
  | .ok _ => true
  | .error _ => false

/-- Claim C4: a token issued for (u, r) verifies with the same secret
before its 1-hour expiry to exactly {userId = u, role = r}; any token
verified at or after its expiry is rejected — the admitting branch is
never taken. -/
theorem jwt_roundtrip_and_expiry :
    (∀ (u : Nat) (r : UserRole) (secret : String) (t0 t1 : Nat),
      t1 < t0 + 3600 →
      jwtVerify (jwtSign ⟨u, r⟩ secret t0) secret t1 = .ok ⟨u, r⟩) ∧
    (∀ (t : Jwt) (secret : String) (now : Nat),
      t.exp ≤ now → verifyAdmits (jwtVerify t secret now) = false) := by
  constructor
  · intro u r secret t0 t1 h
    unfold jwtVerify jwtSign
    simp [Nat.not_le.mpr h]
  · intro t secret now h
    unfold jwtVerify
    by_cases hs : t.secret = secret
    · simp [hs, h, verifyAdmits]
    · simp [hs, verifyAdmits]

/-- Witness for C4: a fresh token round-trips; the same token one hour
later is rejected. -/
theorem jwt_roundtrip_and_expiry_witness :
    jwtVerify (jwtSign ⟨7, .admin⟩ "s" 0) "s" 100 = .ok ⟨7, .admin⟩ ∧
    verifyAdmits (jwtVerify (jwtSign ⟨7, .admin⟩ "s" 0) "s" 3600) = false :=
  ⟨jwt_roundtrip_and_expiry.1 7 .admin "s" 0 100 (by decide),
   jwt_roundtrip_and_expiry.2 (jwtSign ⟨7, .admin⟩ "s" 0) "s" 3600 (by decide)⟩

/-- Unfolding lemma: checkRole on a present header dispatches on the
bearer verification result. -/
theorem checkRole_some_eq (roles : List UserRole) (h : AuthHeader)
    (secret : String) (now : Nat) :
    checkRole roles (some h) secret now =
      (match verifyBearer h.parts[1]? secret now with
       | .error _ => .respond ⟨401, .msg "Invalid token"⟩
       | .ok decoded =>
         if decoded.role ∈ roles then .next decoded
         else .respond ⟨403, .msg "Access denied"⟩) := rfl

/-- Unfolding lemma: the admin route responds with the response of the
middleware, or with the welcome message when the middleware passed. -/
theorem adminRoute_eq (authHeader : Option AuthHeader) (secret : String)
    (now : Nat) :
    adminRoute authHeader secret now =
      (match checkRole [UserRole.admin] authHeader secret now with
       | .respond r => r
       | .next _ => ⟨200, .msg "Welcome to the admin panel!"⟩) := rfl

/-- Claim C5: GET /admin keeps the failure modes distinguishable. A
missing header or a token that fails verification yields 401; a verified
token whose role is not admin yields 403 Access denied without invoking
the handler; a verified admin token reaches the handler, which responds
200 with the welcome message. -/
theorem admin_route_distinguishes_failures (secret : String) (now : Nat) :
    adminRoute none secret now = ⟨401, .msg "Authorization header missing"⟩ ∧
    (∀ (h : AuthHeader) (e : String),
      verifyBearer h.parts[1]? secret now = .error e →
      adminRoute (some h) secret now = ⟨401, .msg "Invalid token"⟩) ∧
    (∀ (h : AuthHeader) (p : JwtPayload),
      verifyBearer h.parts[1]? secret now = .ok p → p.role ≠ .admin →
      checkRole [UserRole.admin] (some h) secret now =
        .respond ⟨403, .msg "Access denied"⟩ ∧
      adminRoute (some h) secret now = ⟨403, .msg "Access denied"⟩) ∧
    (∀ (h : AuthHeader) (p : JwtPayload),
      verifyBearer h.parts[1]? secret now = .ok p → p.role = .admin →
      checkRole [UserRole.admin] (some h) secret now = .next p ∧
      adminRoute (some h) secret now = ⟨200, .msg "Welcome to the admin panel!"⟩) := by
  refine ⟨rfl, ?_, ?_, ?_⟩
  · intro h e hv
    rw [adminRoute_eq, checkRole_some_eq, hv]
  · intro h p hv hr
    have hc : checkRole [UserRole.admin] (some h) secret now =
        .respond ⟨403, .msg "Access denied"⟩ := by
      rw [checkRole_some_eq, hv]
      simp [hr]
    exact ⟨hc, by rw [adminRoute_eq, hc]⟩
  · intro h p hv hr
    have hc : checkRole [UserRole.admin] (some h) secret now = .next p := by
      rw [checkRole_some_eq, hv]
      simp [hr]
    exact ⟨hc, by rw [adminRoute_eq, hc]⟩

/-- Witness for C5: the four outcomes at concrete headers — missing
header, garbage token, fresh user-role token, fresh admin-role token. -/
theorem admin_route_distinguishes_failures_witness :
    adminRoute none "s" 0 = ⟨401, .msg "Authorization header missing"⟩ ∧
    adminRoute (some ⟨[.garbage "Bearer", .garbage "xyz"]⟩) "s" 0 =
      ⟨401, .msg "Invalid token"⟩ ∧
    adminRoute (some ⟨[.garbage "Bearer", .tok (jwtSign ⟨1, .user⟩ "s" 0)]⟩) "s" 0 =
      ⟨403, .msg "Access denied"⟩ ∧
    adminRoute (some ⟨[.garbage "Bearer", .tok (jwtSign ⟨2, .admin⟩ "s" 0)]⟩) "s" 0 =
      ⟨200, .msg "Welcome to the admin panel!"⟩ :=
  ⟨(admin_route_distinguishes_failures "s" 0).1,
   (admin_route_distinguishes_failures "s" 0).2.1
     ⟨[.garbage "Bearer", .garbage "xyz"]⟩ "jwt malformed" rfl,
   ((admin_route_distinguishes_failures "s" 0).2.2.1
     ⟨[.garbage "Bearer", .tok (jwtSign ⟨1, .user⟩ "s" 0)]⟩ ⟨1, .user⟩
     rfl (by decide)).2,
   ((admin_route_distinguishes_failures "s" 0).2.2.2
     ⟨[.garbage "Bearer", .tok (jwtSign ⟨2, .admin⟩ "s" 0)]⟩ ⟨2, .admin⟩
     rfl rfl).2⟩

/-- Claim C10: with a present Authorization header whose bearer component
is absent, malformed or not verifiable, checkRole catches the failure and
responds 401 Invalid token; it never calls next(), so the protected
handler never runs with an unverified identity. -/
theorem checkRole_catches_bad_token (roles : List UserRole) (h : AuthHeader)
    (secret : String) (now : Nat) (e : String)
    (hv : verifyBearer h.parts[1]? secret now = .error e) :
    checkRole roles (some h) secret now = .respond ⟨401, .msg "Invalid token"⟩ ∧
    ∀ p : JwtPayload, checkRole roles (some h) secret now ≠ .next p := by
  have hc : checkRole roles (some h) secret now =
      .respond ⟨401, .msg "Invalid token"⟩ := by
    rw [checkRole_some_eq, hv]
  exact ⟨hc, fun p hn => by rw [hc] at hn; exact MWResult.noConfusion hn⟩

/-- Witness for C10: a header with no second component (no bearer token). -/
theorem checkRole_catches_bad_token_witness :
    verifyBearer (AuthHeader.mk [.garbage "Bearer"]).parts[1]? "s" 0 =
      .error "jwt must be provided" ∧
    checkRole [UserRole.admin] (some ⟨[.garbage "Bearer"]⟩) "s" 0 =
      .respond ⟨401, .msg "Invalid token"⟩ :=
  ⟨rfl, (checkRole_catches_bad_token [UserRole.admin] ⟨[.garbage "Bearer"]⟩
    "s" 0 "jwt must be provided" rfl).1⟩

/-- The pipeline around the rate limiter (app.use(rateLimiter)): when the
request is admitted the downstream handlers run; when it is throttled the
fixed message is sent and nothing downstream runs. -/
def rlApply (res : RLResult) (handler : Response × List Ev) :
    Response × List Ev :=
  match res with
  | .allow _ => handler
  | .throttled _ status m _ =>
    (⟨status, .msg m⟩, [.respondEv ⟨status, .msg m⟩])

/-- One hit inside the live window only increments the counter, whatever
the admit decision. -/
theorem rlStep_within (c w t : Nat) (h : t < w + rlWindowMs) :
    (rateLimiter (some ⟨c, w⟩) t).state = ⟨c + 1, w⟩ := by
  unfold rateLimiter rlHit RLResult.state
  have hw : ¬ (w + rlWindowMs ≤ t) := Nat.not_le.mpr h
  simp only [hw, if_false]
  by_cases hc : c + 1 ≤ rlMax
  · simp [hc]
  · simp [hc]

/-- Hits all inside the live window accumulate in the counter without
resetting the window. -/
theorem rlProcess_within (ts : List Nat) (c w : Nat)
    (h : ∀ t ∈ ts, t < w + rlWindowMs) :
    rlProcess ts (some ⟨c, w⟩) = some ⟨c + ts.length, w⟩ := by
  induction ts generalizing c with
  | nil => simp [rlProcess]
  | cons t ts ih =>
    have ht : t < w + rlWindowMs := h t (List.mem_cons_self t ts)
    have hrest : ∀ x ∈ ts, x < w + rlWindowMs :=
      fun x hx => h x (List.mem_cons_of_mem t hx)
    calc rlProcess (t :: ts) (some ⟨c, w⟩)
        = rlProcess ts (some (rateLimiter (some ⟨c, w⟩) t).state) := rfl
      _ = rlProcess ts (some ⟨c + 1, w⟩) := by rw [rlStep_within c w t ht]
      _ = some ⟨c + 1 + ts.length, w⟩ := ih (c + 1) hrest
      _ = some ⟨c + (ts.length + 1), w⟩ := by
          have : c + 1 + ts.length = c + (ts.length + 1) := by omega
          rw [this]

/-- Claim C7: eleven requests from one client key inside a single
60-second window leave the counter at 10 after the first ten, the
eleventh is throttled with status 429, the fixed message and the standard
limit/remaining/reset headers, the downstream handler is never invoked on
the throttled request, and once the window has reset a further request is
admitted. -/
theorem rate_limiter_throttles_eleventh (t0 t10 : Nat) (ts : List Nat)
    (hlen : ts.length = 9)
    (hts : ∀ t ∈ ts, t < t0 + rlWindowMs)
    (h10 : t10 < t0 + rlWindowMs) :
    rlProcess (t0 :: ts) none = some ⟨10, t0⟩ ∧
    rateLimiter (some ⟨10, t0⟩) t10 =
      .throttled ⟨11, t0⟩ 429 rlMessage ⟨rlMax, 0, t0 + rlWindowMs⟩ ∧
    (∀ handler : Response × List Ev,
      rlApply (rateLimiter (some ⟨10, t0⟩) t10) handler =
        (⟨429, .msg rlMessage⟩, [.respondEv ⟨429, .msg rlMessage⟩])) ∧
    (∀ t2, t0 + rlWindowMs ≤ t2 →
      rateLimiter (some ⟨11, t0⟩) t2 = .allow ⟨1, t2⟩) := by
  have hfirst : rlProcess (t0 :: ts) none = rlProcess ts (some ⟨1, t0⟩) := rfl
  have hthr : rateLimiter (some ⟨10, t0⟩) t10 =
      .throttled ⟨11, t0⟩ 429 rlMessage ⟨rlMax, 0, t0 + rlWindowMs⟩ := by
    unfold rateLimiter rlHit
    have hw : ¬ (t0 + rlWindowMs ≤ t10) := Nat.not_le.mpr h10
    simp [hw, rlMax]
  refine ⟨?_, hthr, ?_, ?_⟩
  · rw [hfirst, rlProcess_within ts 1 t0 hts, hlen]
  · intro handler
    rw [hthr]
    rfl
  · intro t2 h2
    unfold rateLimiter rlHit
    simp [h2, rlMax]

/-- Witness for C7: requests at 0 ms through 10 ms, then one at 60000 ms. -/
theorem rate_limiter_throttles_eleventh_witness :
    rlProcess [0, 1, 2, 3, 4, 5, 6, 7, 8, 9] none = some ⟨10, 0⟩ ∧
    rateLimiter (some ⟨10, 0⟩) 10 =
      .throttled ⟨11, 0⟩ 429 rlMessage ⟨rlMax, 0, 0 + rlWindowMs⟩ ∧
    (∀ handler : Response × List Ev,
      rlApply (rateLimiter (some ⟨10, 0⟩) 10) handler =
        (⟨429, .msg rlMessage⟩, [.respondEv ⟨429, .msg rlMessage⟩])) ∧
    (∀ t2, 0 + rlWindowMs ≤ t2 →
      rateLimiter (some ⟨11, 0⟩) t2 = .allow ⟨1, t2⟩) :=
  rate_limiter_throttles_eleventh 0 10 [1, 2, 3, 4, 5, 6, 7, 8, 9]
    (by decide) (by decide) (by decide)

/-- A non-empty message list passes the filter of the validators. -/
theorem not_isEmpty_of_ne_nil (l : List String) (h : l ≠ []) :
    (!l.isEmpty) = true := by
  cases l with
  | nil => exact absurd rfl h
  | cons a as => rfl

/-- A present, non-empty per-field message list is kept in the collected
error list. -/
theorem mem_filter_of_ne_nil (l : List String) (ls : List (List String))
    (hmem : l ∈ ls) (h : l ≠ []) :
    l ∈ ls.filter (fun x => !x.isEmpty) :=
  List.mem_filter.mpr ⟨hmem, not_isEmpty_of_ne_nil l h⟩

/-- Claim C9: for both POST /register and POST /login, a payload that
violates at least one declared constraint is answered 400 with message
Validation failed and the per-field constraint-message lists of every
violated field at once, and the route handler is not invoked; a payload
satisfying all constraints passes control to the handler. -/
theorem validation_gate_reports_all (isEmailFn : String → Bool)
    (p q : RawPayload) :
    ((validateRegister isEmailFn p).length > 0 →
      validationMiddleware (validateRegister isEmailFn p) =
        .respond400 "Validation failed" (validateRegister isEmailFn p) ∧
      ∀ handler : Response × List Ev,
        runValidated (validateRegister isEmailFn p) handler =
          (⟨400, .validation "Validation failed" (validateRegister isEmailFn p)⟩,
           [.respondEv
             ⟨400, .validation "Validation failed" (validateRegister isEmailFn p)⟩])) ∧
    ((validateRegister isEmailFn p).length = 0 →
      ∀ handler : Response × List Ev,
        runValidated (validateRegister isEmailFn p) handler = handler) ∧
    (nameErrs p ≠ [] → nameErrs p ∈ validateRegister isEmailFn p) ∧
    (emailErrs isEmailFn p ≠ [] →
      emailErrs isEmailFn p ∈ validateRegister isEmailFn p) ∧
    (passwordErrs p ≠ [] → passwordErrs p ∈ validateRegister isEmailFn p) ∧
    (roleErrs p ≠ [] → roleErrs p ∈ validateRegister isEmailFn p) ∧
    ((validateLogin isEmailFn q).length > 0 →
      validationMiddleware (validateLogin isEmailFn q) =
        .respond400 "Validation failed" (validateLogin isEmailFn q) ∧
      ∀ handler : Response × List Ev,
        runValidated (validateLogin isEmailFn q) handler =
          (⟨400, .validation "Validation failed" (validateLogin isEmailFn q)⟩,
           [.respondEv
             ⟨400, .validation "Validation failed" (validateLogin isEmailFn q)⟩])) ∧
    ((validateLogin isEmailFn q).length = 0 →
      ∀ handler : Response × List Ev,
        runValidated (validateLogin isEmailFn q) handler = handler) ∧
    (emailErrs isEmailFn q ≠ [] →
      emailErrs isEmailFn q ∈ validateLogin isEmailFn q) ∧
    (loginPasswordErrs q ≠ [] →
      loginPasswordErrs q ∈ validateLogin isEmailFn q) := by
  have hpos : ∀ errs : List (List String), errs.length > 0 →
      validationMiddleware errs = .respond400 "Validation failed" errs := by
    intro errs h
    unfold validationMiddleware
    rw [if_pos h]
  have hrunPos : ∀ (errs : List (List String)) (handler : Response × List Ev),
      errs.length > 0 →
      runValidated errs handler =
        (⟨400, .validation "Validation failed" errs⟩,
         [.respondEv ⟨400, .validation "Validation failed" errs⟩]) := by
    intro errs handler h
    unfold runValidated
    rw [hpos errs h]
  have hrunZero : ∀ (errs : List (List String)) (handler : Response × List Ev),
      errs.length = 0 → runValidated errs handler = handler := by
    intro errs handler h
    unfold runValidated validationMiddleware
    rw [if_neg (by omega)]
  refine ⟨fun h => ⟨hpos _ h, fun handler => hrunPos _ handler h⟩,
    fun h handler => hrunZero _ handler h,
    fun h => mem_filter_of_ne_nil _ _ (by simp) h,
    fun h => mem_filter_of_ne_nil _ _ (by simp) h,
    fun h => mem_filter_of_ne_nil _ _ (by simp) h,
    fun h => mem_filter_of_ne_nil _ _ (by simp) h,
    fun h => ⟨hpos _ h, fun handler => hrunPos _ handler h⟩,
    fun h handler => hrunZero _ handler h,
    fun h => mem_filter_of_ne_nil _ _ (by simp) h,
    fun h => mem_filter_of_ne_nil _ _ (by simp) h⟩

/-- Witness for C9: a register payload violating four fields is answered
with all four message lists; a clean login payload reaches the handler. -/
theorem validation_gate_reports_all_witness :
    validationMiddleware (validateRegister (fun s => s == "a@b.c")
        ⟨some .nonStr, none, some (.str "abc"), some (.str "boss")⟩) =
      .respond400 "Validation failed" (validateRegister (fun s => s == "a@b.c")
        ⟨some .nonStr, none, some (.str "abc"), some (.str "boss")⟩) ∧
    nameErrs ⟨some .nonStr, none, some (.str "abc"), some (.str "boss")⟩ ∈
      validateRegister (fun s => s == "a@b.c")
        ⟨some .nonStr, none, some (.str "abc"), some (.str "boss")⟩ ∧
    passwordErrs ⟨some .nonStr, none, some (.str "abc"), some (.str "boss")⟩ ∈
      validateRegister (fun s => s == "a@b.c")
        ⟨some .nonStr, none, some (.str "abc"), some (.str "boss")⟩ ∧
    roleErrs ⟨some .nonStr, none, some (.str "abc"), some (.str "boss")⟩ ∈
      validateRegister (fun s => s == "a@b.c")
        ⟨some .nonStr, none, some (.str "abc"), some (.str "boss")⟩ ∧
    runValidated (validateLogin (fun s => s == "a@b.c")
        ⟨none, some (.str "a@b.c"), some (.str "pw"), none⟩)
      (⟨200, .msg "ok"⟩, []) = (⟨200, .msg "ok"⟩, []) :=
  ⟨((validation_gate_reports_all (fun s => s == "a@b.c")
      ⟨some .nonStr, none, some (.str "abc"), some (.str "boss")⟩
      ⟨none, some (.str "a@b.c"), some (.str "pw"), none⟩).1 (by decide)).1,
   (validation_gate_reports_all (fun s => s == "a@b.c")
      ⟨some .nonStr, none, some (.str "abc"), some (.str "boss")⟩
      ⟨none, some (.str "a@b.c"), some (.str "pw"), none⟩).2.2.1 (by decide),
   (validation_gate_reports_all (fun s => s == "a@b.c")
      ⟨some .nonStr, none, some (.str "abc"), some (.str "boss")⟩
      ⟨none, some (.str "a@b.c"), some (.str "pw"), none⟩).2.2.2.2.1 (by decide),
   (validation_gate_reports_all (fun s => s == "a@b.c")
      ⟨some .nonStr, none, some (.str "abc"), some (.str "boss")⟩
      ⟨none, some (.str "a@b.c"), some (.str "pw"), none⟩).2.2.2.2.2.1 (by decide),
   (validation_gate_reports_all (fun s => s == "a@b.c")
      ⟨some .nonStr, none, some (.str "abc"), some (.str "boss")⟩
      ⟨none, some (.str "a@b.c"), some (.str "pw"), none⟩).2.2.2.2.2.2.2.1
     (by decide) (⟨200, .msg "ok"⟩, [])⟩

end Bootcamp
